import Mathlib

/-!
Verification development for the token-credential core of ms-rest-nodeauth.

The embedding below translates two source units:
* `AzureCliCredentials` (lib/credentials/azureCliCredentials.ts):
  a renewable credential caching a CLI-acquired token, with
  `getToken` / `signRequest` and a 270-second renewal margin.
* `MSITokenCredentials` (dist/lib/credentials/msiTokenCredentials.js):
  a cacheless managed-service-identity credential acquiring a token from
  the local metadata endpoint on every call.

Effects are made explicit: the acquirer / HTTP transport is passed in as a
function argument, state updates are explicit state passing, thrown errors
become `Except.error` carrying the thrown message, and each operation also
returns the number of acquirer invocations (resp. the list of HTTP requests
issued) so that "invokes the acquirer exactly once" is statable.
-/

namespace MsRestNodeAuth

/-- JavaScript truthiness of an optional string value: `undefined` and the
empty string are falsy, every other string is truthy. -/
def jsTruthyStr : Option String → Bool
  | none => false
  | some s => s ≠ ""

/-- Mirrors the `CliAccessToken` interface. `expiresOn` is the
`Date` field as milliseconds since epoch (`Date.getTime()`); `none` models a
falsy (absent) `expiresOn`. -/
structure CliAccessToken where
  accessToken : String
  expiresOn : Option Int
  subscription : String
  tenant : String
  tokenType : String
deriving DecidableEq, Repr

/-- The slice of `LinkedSubscription` the credential logic reads: the
subscription `id`. -/
structure LinkedSubscription where
  id : String
deriving DecidableEq, Repr

/-- The mutable state of an `AzureCliCredentials` instance. -/
structure AzureCliCredentials where
  subscriptionInfo : LinkedSubscription
  tokenInfo : CliAccessToken
deriving DecidableEq, Repr

/-- `tokenRenewalMarginInSeconds`, the constant 270 from the source. -/
def tokenRenewalMarginInSeconds : Int := 270

/-- Error thrown by the acquirer (`AzureCliCredentials.getAccessToken`,
ultimately the `az` process): an optional `stderr` and a `message`. -/
structure AcquireError where
  stderr : Option String
  message : String
deriving DecidableEq, Repr

/-- The value resolved by `AzureCliCredentials.getToken`: the source builds a
fresh object carrying `accessToken` and `tokenType` copied from `tokenInfo`. -/
structure TokenResponse where
  accessToken : String
  tokenType : String
deriving DecidableEq, Repr

/-- An acquirer oracle standing for `AzureCliCredentials.getAccessToken`:
given the subscription id it either returns a fresh `CliAccessToken` or
fails. -/
def CliAcquirer := String → Except AcquireError CliAccessToken

/-- The refresh condition of `AzureCliCredentials.getToken`, translated from
the `if` at lines 87-92 of the source:
`!this.tokenInfo.expiresOn || this.subscriptionInfo.id !== this.tokenInfo.subscription || Math.floor(this.tokenInfo.expiresOn.getTime() / 1000) - now < this.tokenRenewalMarginInSeconds`.
`now` is in seconds (the source computes `Math.floor(Date.now() / 1000)`). -/
def refreshRequired (c : AzureCliCredentials) (now : Int) : Bool :=
  match c.tokenInfo.expiresOn with
  | none => true
  | some t =>
    c.subscriptionInfo.id ≠ c.tokenInfo.subscription ∨
      Int.fdiv t 1000 - now < tokenRenewalMarginInSeconds

/-- The message of the error thrown when the refresh fails, from lines
99-102 of the source: `err.stderr ? err.stderr : err.message` appended to the
fixed text. -/
def refreshErrorMessage (e : AcquireError) : String :=
  "An error occurred while refreshing the new access token:" ++
    (if jsTruthyStr e.stderr then e.stderr.getD "" else e.message)

/-- `AzureCliCredentials.getToken`, lines 83-109 of the source. Returns the
post-call state, the number of acquirer invocations, and either the resolved
`TokenResponse` or the thrown error message. -/
def getToken (c : AzureCliCredentials) (now : Int) (acquire : CliAcquirer) :
    AzureCliCredentials × Nat × Except String TokenResponse :=
  if refreshRequired c now then
    match acquire c.subscriptionInfo.id with
    | .ok fresh =>
      let c' : AzureCliCredentials := { c with tokenInfo := fresh }
      (c', 1, .ok ⟨c'.tokenInfo.accessToken, c'.tokenInfo.tokenType⟩)
    | .error e => (c, 1, .error (refreshErrorMessage e))
  else
    (c, 0, .ok ⟨c.tokenInfo.accessToken, c.tokenInfo.tokenType⟩)

/-- The value of `MSRestConstants.HeaderConstants.AUTHORIZATION` from the
ms-rest-js dependency. -/
def AUTHORIZATION : String := "authorization"

/-- A request object: a mutable mapping of header name to value. -/
structure WebResource where
  headers : List (String × String)
deriving DecidableEq, Repr

/-- `headers.set(key, value)`: replace any existing entry for `key` and
append the new pair. -/
def headersSet (hs : List (String × String)) (key value : String) :
    List (String × String) :=
  hs.filter (fun kv => kv.1 ≠ key) ++ [(key, value)]

/-- Header lookup on a request. -/
def headerGet (w : WebResource) (key : String) : Option String :=
  (w.headers.find? (fun kv => kv.1 = key)).map (·.2)

/-- `AzureCliCredentials.signRequest`, lines 117-124 of the source: await
`getToken`, then set the Authorization header to
`tokenType ++ " " ++ accessToken`. Returns the post-call credential state,
the acquirer invocation count, the final state of the request object (on a
thrown error the request object is untouched), and the resolved request or
the propagated error. -/
def signRequest (c : AzureCliCredentials) (now : Int) (acquire : CliAcquirer)
    (w : WebResource) :
    AzureCliCredentials × Nat × WebResource × Except String WebResource :=
  match getToken c now acquire with
  | (c', n, .ok tr) =>
    let w' : WebResource :=
      ⟨headersSet w.headers AUTHORIZATION (tr.tokenType ++ " " ++ tr.accessToken)⟩
    (c', n, w', .ok w')
  | (c', n, .error e) => (c', n, w, .error e)

/-! ### MSITokenCredentials (dist/lib/credentials/msiTokenCredentials.js) -/

/-- The hexadecimal digit characters used by `encodeURIComponent`
(uppercase, as JavaScript produces). -/
def hexDigit (n : Nat) : Char :=
  if n < 10 then Char.ofNat (48 + n) else Char.ofNat (55 + n)

/-- UTF-8 encoding of a single character, as the byte list JavaScript
percent-encodes. -/
def utf8Bytes (c : Char) : List Nat :=
  let n := c.toNat
  if n < 128 then [n]
  else if n < 2048 then
    [192 + n / 64, 128 + n % 64]
  else if n < 65536 then
    [224 + n / 4096, 128 + n / 64 % 64, 128 + n % 64]
  else
    [240 + n / 262144, 128 + n / 4096 % 64, 128 + n / 64 % 64, 128 + n % 64]

/-- The characters `encodeURIComponent` leaves unescaped:
`A-Z a-z 0-9 - _ . ! ~ * ' ( )`. -/
def isUriUnescaped (c : Char) : Bool :=
  c.isAlpha || c.isDigit ||
    [45, 95, 46, 33, 126, 42, 39, 40, 41].contains c.toNat

/-- JavaScript `encodeURIComponent`: unescaped characters pass through,
every other character is UTF-8 encoded and each byte written as `%` followed
by two uppercase hex digits. -/
def encodeURIComponent (s : String) : String :=
  String.mk (s.data.flatMap fun c =>
    if isUriUnescaped c then [c]
    else (utf8Bytes c).flatMap fun b =>
      [Char.ofNat 37, hexDigit (b / 16), hexDigit (b % 16)])

/-- The request options record built by
`MSITokenCredentials.prepareRequestOptions` (lines 71-83 of the source). -/
structure MSIRequestOptions where
  url : String
  headers : List (String × String)
  body : String
  method : String
deriving DecidableEq, Repr

/-- A small universe of JavaScript values, for the constructor's runtime
`typeof x.valueOf()` checks. -/
inductive JSValue where
  | num (n : Int)
  | str (s : String)
  | bool (b : Bool)
deriving DecidableEq, Repr

/-- `typeof v.valueOf()` on the modelled values. -/
def jsTypeof : JSValue → String
  | .num _ => "number"
  | .str _ => "string"
  | .bool _ => "boolean"

/-- The fields of a successfully constructed `MSITokenCredentials`
instance: the constructor's validation guarantees `this.port` is a number
and `this.resource` a string. -/
structure MSITokenCredentials where
  port : Int
  resource : String
deriving DecidableEq, Repr

/-- The `MSITokenCredentials` constructor (lines 19-41 of the source):
an omitted argument (`none`) takes the default (`50342`,
`"https://management.azure.com/"`); a provided value whose
`typeof _.valueOf()` is not `"number"` (for the port, checked first) or
`"string"` (for the resource) makes the constructor throw synchronously. No
request is issued: the constructor has no access to a transport. -/
def msiConstructor (port resource : Option JSValue) :
    Except String MSITokenCredentials :=
  match port.getD (.num 50342), resource.getD (.str "https://management.azure.com/") with
  | .num n, .str s => .ok ⟨n, s⟩
  | .num _, _ => .error "resource must be a uri of type string."
  | _, _ => .error "port must be a number."

/-- `MSITokenCredentials.prepareRequestOptions` (lines 71-83 of the
source). -/
def prepareRequestOptions (creds : MSITokenCredentials) : MSIRequestOptions :=
  { url := "http://localhost:" ++ toString creds.port ++ "/oauth2/token"
    headers :=
      [("Content-Type", "application/x-www-form-urlencoded; charset=UTF-8"),
       ("Metadata", "true")]
    body := "resource=" ++ encodeURIComponent creds.resource
    method := "POST" }

/-- The JSON body of the metadata endpoint's response, restricted to the two
fields the source reads; `none` models an absent field. -/
structure MSITokenResponseBody where
  token_type : Option String
  access_token : Option String
deriving DecidableEq, Repr

/-- The HTTP operation response as the source consumes it: the parsed JSON
body and the raw body text interpolated into error messages. -/
structure HttpOperationResponse where
  bodyAsJson : MSITokenResponseBody
  bodyAsText : String
deriving DecidableEq, Repr

/-- An HTTP transport oracle standing for
`msRest.ServiceClient().sendRequest`. -/
def MSITransport := MSIRequestOptions → Except String HttpOperationResponse

/-- `MSITokenCredentials.getToken` (lines 49-70 of the source): build the
request options, send the request, then require a truthy `token_type` and a
truthy `access_token` in the parsed body, rejecting with a message naming
the first falsy field and quoting the raw body text. Returns the (unchanged)
credential state, the list of requests issued, and the outcome. -/
def msiGetToken (creds : MSITokenCredentials) (send : MSITransport) :
    MSITokenCredentials × List MSIRequestOptions ×
      Except String MSITokenResponseBody :=
  let reqOptions := prepareRequestOptions creds
  (creds, [reqOptions],
    match send reqOptions with
    | .error e => .error e
    | .ok opRes =>
      if ¬ jsTruthyStr opRes.bodyAsJson.token_type then
        .error ("Invalid token response, did not find token_type. " ++
          "Response body is: " ++ opRes.bodyAsText)
      else if ¬ jsTruthyStr opRes.bodyAsJson.access_token then
        .error ("Invalid token response, did not find access_token. " ++
          "Response body is: " ++ opRes.bodyAsText)
      else .ok opRes.bodyAsJson)

/-- `MSITokenCredentials.signRequest` (lines 91-97 of the source): await
`getToken`, then assign the Authorization header to
`token_type ++ " " ++ access_token`. On a rejected `getToken` the request
object is untouched and the error propagates. -/
def msiSignRequest (creds : MSITokenCredentials) (send : MSITransport)
    (w : WebResource) :
    MSITokenCredentials × List MSIRequestOptions × WebResource ×
      Except String WebResource :=
  match msiGetToken creds send with
  | (creds', reqs, .ok body) =>
    let w' : WebResource :=
      ⟨headersSet w.headers AUTHORIZATION
        (body.token_type.getD "" ++ " " ++ body.access_token.getD "")⟩
    (creds', reqs, w', .ok w')
  | (creds', reqs, .error e) => (creds', reqs, w, .error e)

/-- Boolean substring test: `sub` occurs contiguously in `s`. -/
def strContains (s sub : String) : Bool :=
  (List.range (s.length + 1)).any fun i => sub.data.isPrefixOf (s.data.drop i)

/-- Whether an `Except` is a success. -/
def exceptOk {ε α : Type} : Except ε α → Bool
  | .ok _ => true
  | .error _ => false

/-! ### Helper lemmas -/

lemma refreshRequired_iff (c : AzureCliCredentials) (now : Int) :
    refreshRequired c now = true ↔
      c.tokenInfo.expiresOn = none ∨
      c.subscriptionInfo.id ≠ c.tokenInfo.subscription ∨
      ∃ t, c.tokenInfo.expiresOn = some t ∧
        Int.fdiv t 1000 - now < tokenRenewalMarginInSeconds := by
  unfold refreshRequired
  rcases he : c.tokenInfo.expiresOn with _ | t <;> simp [he]

lemma getToken_count (c : AzureCliCredentials) (now : Int)
    (acquire : CliAcquirer) :
    (getToken c now acquire).2.1 = if refreshRequired c now then 1 else 0 := by
  unfold getToken
  by_cases h : refreshRequired c now = true
  · cases hacq : acquire c.subscriptionInfo.id <;> simp [h, hacq]
  · simp [h]

lemma getToken_not_required (c : AzureCliCredentials) (now : Int)
    (acquire : CliAcquirer) (h : refreshRequired c now = false) :
    getToken c now acquire =
      (c, 0, Except.ok ⟨c.tokenInfo.accessToken, c.tokenInfo.tokenType⟩) := by
  unfold getToken
  simp [h]

lemma getToken_required_ok (c : AzureCliCredentials) (now : Int)
    (acquire : CliAcquirer) (fresh : CliAccessToken)
    (h : refreshRequired c now = true)
    (hacq : acquire c.subscriptionInfo.id = Except.ok fresh) :
    getToken c now acquire =
      ({ c with tokenInfo := fresh }, 1,
        Except.ok ⟨fresh.accessToken, fresh.tokenType⟩) := by
  unfold getToken
  simp [h, hacq]

lemma getToken_required_error (c : AzureCliCredentials) (now : Int)
    (acquire : CliAcquirer) (e : AcquireError)
    (h : refreshRequired c now = true)
    (hacq : acquire c.subscriptionInfo.id = Except.error e) :
    getToken c now acquire = (c, 1, Except.error (refreshErrorMessage e)) := by
  unfold getToken
  simp [h, hacq]

lemma refreshRequired_false_of (c : AzureCliCredentials) (now t : Int)
    (he : c.tokenInfo.expiresOn = some t)
    (hs : c.subscriptionInfo.id = c.tokenInfo.subscription)
    (hm : tokenRenewalMarginInSeconds ≤ Int.fdiv t 1000 - now) :
    refreshRequired c now = false := by
  unfold refreshRequired
  simp [he, hs]
  omega

lemma headerGet_set (hs : List (String × String)) (k v : String) :
    headerGet ⟨headersSet hs k v⟩ k = some v := by
  unfold headerGet headersSet
  induction hs with
  | nil => simp [List.find?]
  | cons kv rest ih =>
    by_cases hk : kv.1 = k
    · simp [List.filter_cons, hk, ih]
    · simp [List.filter_cons, hk, ih]

/-! ### Claims -/

/-- C1: `AzureCliCredentials.getToken` invokes the acquirer iff the cached
payload's expiry is absent, or the desired subscription id differs from the
cached payload's subscription, or `floor(expiresAt in seconds) - now` is
strictly below the 270-second renewal margin; at exactly the margin no
refresh occurs and the cached payload is used. -/
theorem cli_getToken_refresh_iff (c : AzureCliCredentials) (now : Int)
    (acquire : CliAcquirer) :
    ((getToken c now acquire).2.1 = 1 ↔
      c.tokenInfo.expiresOn = none ∨
      c.subscriptionInfo.id ≠ c.tokenInfo.subscription ∨
      ∃ t, c.tokenInfo.expiresOn = some t ∧
        Int.fdiv t 1000 - now < tokenRenewalMarginInSeconds) ∧
    (∀ t, c.tokenInfo.expiresOn = some t →
      c.subscriptionInfo.id = c.tokenInfo.subscription →
      Int.fdiv t 1000 - now = tokenRenewalMarginInSeconds →
      getToken c now acquire =
        (c, 0, Except.ok ⟨c.tokenInfo.accessToken, c.tokenInfo.tokenType⟩)) := by
  constructor
  · rw [getToken_count, ← refreshRequired_iff]
    by_cases h : refreshRequired c now = true <;> simp [h]
  · intro t he hs hm
    exact getToken_not_required c now acquire
      (refreshRequired_false_of c now t he hs (le_of_eq hm.symm))

/-- C1 witness: a token expiring exactly 270 seconds from now, on the cached
subscription, is served from the cache without invoking the acquirer. -/
theorem cli_getToken_refresh_iff_witness :
    getToken ⟨⟨"A"⟩, ⟨"tok", some 1000000, "A", "t", "Bearer"⟩⟩ 730
        (fun _ => Except.error ⟨none, "x"⟩) =
      (⟨⟨"A"⟩, ⟨"tok", some 1000000, "A", "t", "Bearer"⟩⟩, 0,
        Except.ok ⟨"tok", "Bearer"⟩) :=
  (cli_getToken_refresh_iff _ 730 _).2 1000000 rfl rfl (by decide)

/-- C2: when a refresh is required and the acquirer fails,
`AzureCliCredentials.getToken` rethrows the wrapped refresh error and leaves
`tokenInfo` exactly as it was; a later call whose cached payload is still
valid succeeds from the cache without invoking its acquirer. -/
theorem cli_refresh_failure_preserves_cache (c : AzureCliCredentials)
    (now now2 t : Int) (acquire acquire2 : CliAcquirer) (e : AcquireError)
    (hreq : refreshRequired c now = true)
    (hfail : acquire c.subscriptionInfo.id = Except.error e)
    (he : c.tokenInfo.expiresOn = some t)
    (hs : c.subscriptionInfo.id = c.tokenInfo.subscription)
    (hm : tokenRenewalMarginInSeconds ≤ Int.fdiv t 1000 - now2) :
    getToken c now acquire = (c, 1, Except.error (refreshErrorMessage e)) ∧
    getToken c now2 acquire2 =
      (c, 0, Except.ok ⟨c.tokenInfo.accessToken, c.tokenInfo.tokenType⟩) :=
  ⟨getToken_required_error c now acquire e hreq hfail,
   getToken_not_required c now2 acquire2
     (refreshRequired_false_of c now2 t he hs hm)⟩

/-- C2 witness: a failing refresh at time 731 wraps the acquirer's stderr
and leaves the cached payload intact; at time 0 the same cache is served
without any acquisition. -/
theorem cli_refresh_failure_preserves_cache_witness :
    getToken ⟨⟨"A"⟩, ⟨"tok", some 1000000, "A", "t", "Bearer"⟩⟩ 731
        (fun _ => Except.error ⟨some "std", "m"⟩) =
      (⟨⟨"A"⟩, ⟨"tok", some 1000000, "A", "t", "Bearer"⟩⟩, 1,
        Except.error
          "An error occurred while refreshing the new access token:std") ∧
    getToken ⟨⟨"A"⟩, ⟨"tok", some 1000000, "A", "t", "Bearer"⟩⟩ 0
        (fun _ => Except.error ⟨none, "n"⟩) =
      (⟨⟨"A"⟩, ⟨"tok", some 1000000, "A", "t", "Bearer"⟩⟩, 0,
        Except.ok ⟨"tok", "Bearer"⟩) :=
  cli_refresh_failure_preserves_cache _ 731 0 1000000 _ _
    ⟨some "std", "m"⟩ (by decide) rfl rfl rfl (by decide)

/-- C3 counterexample: a cached payload whose expiry is a billion seconds
away is nevertheless refreshed (the acquirer is invoked, and the fresh
payload, not the cached one, is returned) because the desired subscription
id differs from the cached payload's subscription. -/
theorem cli_far_expiry_refreshes_on_mismatch :
    (getToken ⟨⟨"A"⟩, ⟨"tok", some 1000000000000, "B", "t", "Bearer"⟩⟩ 0
        (fun _ =>
          Except.ok ⟨"new", some 2000000000000, "A", "t", "Bearer"⟩)).2.1 =
      1 ∧
    (getToken ⟨⟨"A"⟩, ⟨"tok", some 1000000000000, "B", "t", "Bearer"⟩⟩ 0
        (fun _ =>
          Except.ok ⟨"new", some 2000000000000, "A", "t", "Bearer"⟩)).2.2 =
      Except.ok ⟨"new", "Bearer"⟩ := by
  exact ⟨rfl, rfl⟩

/-- C3 (amended): provided the cached payload's expiry is present and the
desired subscription id equals the cached payload's subscription, a payload
at least 270 seconds from expiry is returned from the cache without invoking
the acquirer, and a payload within the margin causes exactly one successful
acquisition whose fresh payload replaces the cache and is returned. -/
theorem cli_getToken_margin_behavior (c : AzureCliCredentials) (now t : Int)
    (acquire : CliAcquirer) (fresh : CliAccessToken)
    (he : c.tokenInfo.expiresOn = some t)
    (hs : c.subscriptionInfo.id = c.tokenInfo.subscription) :
    (tokenRenewalMarginInSeconds ≤ Int.fdiv t 1000 - now →
      getToken c now acquire =
        (c, 0, Except.ok ⟨c.tokenInfo.accessToken, c.tokenInfo.tokenType⟩)) ∧
    (Int.fdiv t 1000 - now < tokenRenewalMarginInSeconds →
      acquire c.subscriptionInfo.id = Except.ok fresh →
      getToken c now acquire =
        ({ c with tokenInfo := fresh }, 1,
          Except.ok ⟨fresh.accessToken, fresh.tokenType⟩)) := by
  constructor
  · intro hm
    exact getToken_not_required c now acquire
      (refreshRequired_false_of c now t he hs hm)
  · intro hm hacq
    have hreq : refreshRequired c now = true := by
      rw [refreshRequired_iff]
      exact Or.inr (Or.inr ⟨t, he, hm⟩)
    exact getToken_required_ok c now acquire fresh hreq hacq

/-- C3 witness: a payload 269 seconds from expiry is refreshed by exactly
one acquisition and the fresh payload is returned. -/
theorem cli_getToken_margin_behavior_witness :
    getToken ⟨⟨"A"⟩, ⟨"tok", some 1000000, "A", "t", "Bearer"⟩⟩ 731
        (fun _ => Except.ok ⟨"new", some 2000000, "A", "t", "Bearer"⟩) =
      (⟨⟨"A"⟩, ⟨"new", some 2000000, "A", "t", "Bearer"⟩⟩, 1,
        Except.ok ⟨"new", "Bearer"⟩) :=
  (cli_getToken_margin_behavior _ 731 1000000 _
    ⟨"new", some 2000000, "A", "t", "Bearer"⟩ rfl rfl).2 (by decide) rfl

/-- C4: when `getToken` succeeds with token type `T` and access token `A`,
`AzureCliCredentials.signRequest` sets the request's Authorization header to
exactly `T ++ " " ++ A` (single space, no case normalization) and resolves
with the request; in particular token type `"Bearer"` and access token
`"abc123"` yield header value exactly `"Bearer abc123"`. -/
theorem cli_signRequest_sets_authorization (c : AzureCliCredentials)
    (now : Int) (acquire : CliAcquirer) (w : WebResource) (tr : TokenResponse)
    (h : (getToken c now acquire).2.2 = Except.ok tr) :
    (signRequest c now acquire w).2.2.2 =
      Except.ok ⟨headersSet w.headers AUTHORIZATION
        (tr.tokenType ++ " " ++ tr.accessToken)⟩ ∧
    headerGet (signRequest c now acquire w).2.2.1 AUTHORIZATION =
      some (tr.tokenType ++ " " ++ tr.accessToken) ∧
    (signRequest ⟨⟨"A"⟩, ⟨"abc123", some 1000000, "A", "t", "Bearer"⟩⟩ 0
        (fun _ => Except.error ⟨none, "x"⟩) ⟨[]⟩).2.2.2 =
      Except.ok ⟨[("authorization", "Bearer abc123")]⟩ := by
  rcases hg : getToken c now acquire with ⟨c', n, r⟩
  have hr : r = Except.ok tr := by rw [hg] at h; exact h
  subst hr
  unfold signRequest
  rw [hg]
  exact ⟨rfl, headerGet_set w.headers AUTHORIZATION _, rfl⟩

/-- C4 witness: signing with a cached Bearer token `abc123` sets the
Authorization header to exactly `"Bearer abc123"`. -/
theorem cli_signRequest_sets_authorization_witness :
    (signRequest ⟨⟨"A"⟩, ⟨"abc123", some 1000000, "A", "t", "Bearer"⟩⟩ 0
        (fun _ => Except.error ⟨none, "x"⟩) ⟨[]⟩).2.2.2 =
      Except.ok ⟨[("authorization", "Bearer abc123")]⟩ ∧
    headerGet
      (signRequest ⟨⟨"A"⟩, ⟨"abc123", some 1000000, "A", "t", "Bearer"⟩⟩ 0
        (fun _ => Except.error ⟨none, "x"⟩) ⟨[]⟩).2.2.1 AUTHORIZATION =
      some "Bearer abc123" ∧
    (signRequest ⟨⟨"A"⟩, ⟨"abc123", some 1000000, "A", "t", "Bearer"⟩⟩ 0
        (fun _ => Except.error ⟨none, "x"⟩) ⟨[]⟩).2.2.2 =
      Except.ok ⟨[("authorization", "Bearer abc123")]⟩ :=
  cli_signRequest_sets_authorization _ 0 _ ⟨[]⟩ ⟨"abc123", "Bearer"⟩ rfl

/-- C5: when `getToken` fails, `AzureCliCredentials.signRequest` propagates
the very same error to its caller and leaves the request object untouched —
the Authorization header is never written and the failure is never
swallowed or transformed. -/
theorem cli_signRequest_propagates_error (c : AzureCliCredentials)
    (now : Int) (acquire : CliAcquirer) (w : WebResource) (e : String)
    (h : (getToken c now acquire).2.2 = Except.error e) :
    (signRequest c now acquire w).2.2.2 = Except.error e ∧
    (signRequest c now acquire w).2.2.1 = w := by
  rcases hg : getToken c now acquire with ⟨c', n, r⟩
  have hr : r = Except.error e := by rw [hg] at h; exact h
  subst hr
  unfold signRequest
  rw [hg]
  exact ⟨rfl, rfl⟩

/-- C5 witness: a refresh failure during signing surfaces as the wrapped
refresh error and the request's headers are unchanged. -/
theorem cli_signRequest_propagates_error_witness :
    (signRequest ⟨⟨"A"⟩, ⟨"tok", some 1000000, "B", "t", "Bearer"⟩⟩ 0
        (fun _ => Except.error ⟨none, "n"⟩) ⟨[("k", "v")]⟩).2.2.2 =
      Except.error
        "An error occurred while refreshing the new access token:n" ∧
    (signRequest ⟨⟨"A"⟩, ⟨"tok", some 1000000, "B", "t", "Bearer"⟩⟩ 0
        (fun _ => Except.error ⟨none, "n"⟩) ⟨[("k", "v")]⟩).2.2.1 =
      ⟨[("k", "v")]⟩ :=
  cli_signRequest_propagates_error _ 0 _ ⟨[("k", "v")]⟩
    "An error occurred while refreshing the new access token:n" rfl

/-- C6: `MSITokenCredentials.getToken` issues exactly one HTTP POST to
`http://localhost:{port}/oauth2/token` with header `Metadata: true`, a
Content-Type of the `application/x-www-form-urlencoded` media type, and body
`resource=` followed by the URL-encoding of the resource; in particular the
default resource `"https://management.azure.com/"` yields body exactly
`resource=https%3A%2F%2Fmanagement.azure.com%2F`. -/
theorem msi_getToken_issues_single_post (creds : MSITokenCredentials)
    (send : MSITransport) :
    (msiGetToken creds send).2.1 =
      [{ url := "http://localhost:" ++ toString creds.port ++ "/oauth2/token"
         headers :=
           [("Content-Type",
             "application/x-www-form-urlencoded; charset=UTF-8"),
            ("Metadata", "true")]
         body := "resource=" ++ encodeURIComponent creds.resource
         method := "POST" }] ∧
    encodeURIComponent "https://management.azure.com/" =
      "https%3A%2F%2Fmanagement.azure.com%2F" ∧
    "application/x-www-form-urlencoded".data.isPrefixOf
      "application/x-www-form-urlencoded; charset=UTF-8".data = true := by
  exact ⟨rfl, by decide, by decide⟩

/-- C7 counterexample: a response whose `token_type` field is present but
empty, with `access_token` present, is not returned — the code treats the
falsy field as missing and rejects. -/
theorem msi_empty_token_type_not_returned :
    (msiGetToken ⟨50342, "res"⟩
        (fun _ => Except.ok ⟨⟨some "", some "tok"⟩, "text"⟩)).2.2 =
      Except.error
        "Invalid token response, did not find token_type. Response body is: text" := by
  rfl

/-- C7 (amended): a response body whose `token_type` (checked first) or
`access_token` is absent or empty makes `MSITokenCredentials.getToken` fail
with an error naming that field and quoting the raw body — never a crash or
a partial payload — and when both fields are present and non-empty the
parsed body is returned. -/
theorem msi_getToken_validates_fields (creds : MSITokenCredentials)
    (send : MSITransport) (body : MSITokenResponseBody) (text : String)
    (hsend : send (prepareRequestOptions creds) = Except.ok ⟨body, text⟩) :
    (jsTruthyStr body.token_type = false →
      (msiGetToken creds send).2.2 =
        Except.error
          ("Invalid token response, did not find token_type. Response body is: "
            ++ text)) ∧
    (jsTruthyStr body.token_type = true →
      jsTruthyStr body.access_token = false →
      (msiGetToken creds send).2.2 =
        Except.error
          ("Invalid token response, did not find access_token. Response body is: "
            ++ text)) ∧
    (jsTruthyStr body.token_type = true →
      jsTruthyStr body.access_token = true →
      (msiGetToken creds send).2.2 = Except.ok body) := by
  refine ⟨fun h1 => ?_, fun h1 h2 => ?_, fun h1 h2 => ?_⟩ <;>
    · unfold msiGetToken
      simp [hsend, h1]
      try simp [h2]

/-- C7 witness: a response carrying both a non-empty `token_type` and a
non-empty `access_token` is returned as parsed. -/
theorem msi_getToken_validates_fields_witness :
    (msiGetToken ⟨50342, "res"⟩
        (fun _ => Except.ok ⟨⟨some "Bearer", some "tok"⟩, "resp"⟩)).2.2 =
      Except.ok ⟨some "Bearer", some "tok"⟩ :=
  (msi_getToken_validates_fields ⟨50342, "res"⟩ _
    ⟨some "Bearer", some "tok"⟩ "resp" rfl).2.2 rfl rfl

/-- C8: the `MSITokenCredentials` constructor throws synchronously on a
provided port whose value is not a number (checked first) or a provided
resource whose value is not a string, and succeeds on a numeric port with a
string resource; no request can be issued by the constructor, which has no
access to a transport. -/
theorem msi_constructor_validates (p r : JSValue) :
    (jsTypeof p ≠ "number" →
      msiConstructor (some p) (some r) =
        Except.error "port must be a number.") ∧
    (jsTypeof p = "number" → jsTypeof r ≠ "string" →
      msiConstructor (some p) (some r) =
        Except.error "resource must be a uri of type string.") ∧
    (jsTypeof p = "number" → jsTypeof r = "string" →
      exceptOk (msiConstructor (some p) (some r)) = true) := by
  rcases p with n | s | b <;> rcases r with n2 | s2 | b2 <;>
    simp [msiConstructor, jsTypeof, exceptOk]

/-- C8 witness: a string port is rejected with the port error, a boolean
resource with the resource error, and a numeric port with a string resource
is accepted. -/
theorem msi_constructor_validates_witness :
    msiConstructor (some (.str "50342")) (some (.str "res")) =
      Except.error "port must be a number." ∧
    msiConstructor (some (.num 50342)) (some (.bool true)) =
      Except.error "resource must be a uri of type string." ∧
    exceptOk (msiConstructor (some (.num 50342)) (some (.str "res"))) =
      true :=
  ⟨(msi_constructor_validates (.str "50342") (.str "res")).1 (by decide),
   (msi_constructor_validates (.num 50342) (.bool true)).2.1 rfl (by decide),
   (msi_constructor_validates (.num 50342) (.str "res")).2.2 rfl rfl⟩

/-- C9: `MSITokenCredentials` holds no token cache: every `getToken` and
every `signRequest` call issues exactly one fresh acquisition request —
also immediately after a previous call — and neither call changes the
instance's `port` or `resource` fields. -/
theorem msi_no_cache_fresh_acquisition (creds : MSITokenCredentials)
    (send send2 : MSITransport) (w : WebResource) :
    (msiGetToken creds send).1 = creds ∧
    (msiGetToken creds send).2.1 = [prepareRequestOptions creds] ∧
    (msiGetToken (msiGetToken creds send).1 send2).2.1 =
      [prepareRequestOptions creds] ∧
    (msiSignRequest creds send w).1 = creds ∧
    (msiSignRequest creds send w).2.1 = [prepareRequestOptions creds] := by
  refine ⟨rfl, rfl, rfl, ?_, ?_⟩ <;>
    · unfold msiSignRequest msiGetToken
      rcases hs : send (prepareRequestOptions creds) with e | opRes
      · simp [hs]
      · by_cases h1 : jsTruthyStr opRes.bodyAsJson.token_type <;>
          by_cases h2 : jsTruthyStr opRes.bodyAsJson.access_token <;>
            simp [hs, h1, h2]

/-- C10 counterexample: for a response body missing both fields, the raised
message names `token_type`, but it also quotes the raw body text, which here
contains the string `access_token` — so the message is not free of
`access_token` as the claim states. -/
theorem msi_missing_both_message_quotes_access_token :
    (msiGetToken ⟨50342, "res"⟩
        (fun _ =>
          Except.ok ⟨⟨none, none⟩, "\x7b\"note\":\"access_token\"\x7d"⟩)).2.2 =
      Except.error
        "Invalid token response, did not find token_type. Response body is: \x7b\"note\":\"access_token\"\x7d" ∧
    strContains
      "Invalid token response, did not find token_type. Response body is: \x7b\"note\":\"access_token\"\x7d"
      "access_token" = true := by
  exact ⟨rfl, by decide⟩

/-- C10 (amended): for every response body missing both `token_type` and
`access_token`, the raised error names `token_type` as the missing field —
the fixed message text contains no mention of `access_token`, though the
quoted raw body may. -/
theorem msi_missing_both_names_token_type (creds : MSITokenCredentials)
    (send : MSITransport) (body : MSITokenResponseBody) (text : String)
    (hsend : send (prepareRequestOptions creds) = Except.ok ⟨body, text⟩)
    (ht : jsTruthyStr body.token_type = false)
    (_ha : jsTruthyStr body.access_token = false) :
    (msiGetToken creds send).2.2 =
      Except.error
        ("Invalid token response, did not find token_type. Response body is: "
          ++ text) ∧
    strContains
      "Invalid token response, did not find token_type. Response body is: "
      "access_token" = false := by
  refine ⟨?_, by decide⟩
  unfold msiGetToken
  simp [hsend, ht]

/-- C10 witness: a response body with both fields absent yields the
token_type-naming error. -/
theorem msi_missing_both_names_token_type_witness :
    (msiGetToken ⟨50342, "res"⟩
        (fun _ => Except.ok ⟨⟨none, none⟩, "resp"⟩)).2.2 =
      Except.error
        "Invalid token response, did not find token_type. Response body is: resp" ∧
    strContains
      "Invalid token response, did not find token_type. Response body is: "
      "access_token" = false :=
  msi_missing_both_names_token_type ⟨50342, "res"⟩ _ ⟨none, none⟩ "resp"
    rfl rfl rfl

end MsRestNodeAuth
